import Mathlib

/-!
Verification of the snapshot pretty-printing and statistics module
(`crates/engine/src/snapshot/pretty_print.rs`).

The module is a pure diagnostic reporting layer over an insertion-ordered
collection of `(frame_id, snapshot)` pairs.  We embed it shallowly:

* `ExecutionFrameId`, `SnapshotDetail`, `Snapshot` model the data types;
  opaque payloads (USIDs, program counters, addresses) become `Nat`, the
  operand stack becomes `List Nat` (only its length is ever used).
* Printing side effects become structured `OutputEntry` values; a function
  that prints returns the list of entries it emits, in emission order.  The
  diagnostic log call is modelled as an in-stream `logError` entry at the
  point where it fires.
* `f64` percentages and averages are modelled as exact rationals (`ℚ`); the
  guarded divisions of the source are kept verbatim.  (All the numbers fed
  into them are small integer counts, on which `f64` arithmetic is exact, so
  the rational model is faithful at the value level; decimal rendering of
  the resulting number is a presentation detail outside the embedding.)
* Hash sets are modelled as duplicate-free lists (only membership and size
  are observed); the hash-map-plus-order-vector grouping structure is
  modelled as an association list plus the order list, mirroring the loop.
-/

/-- An execution frame identifier: a trace-entry index plus a re-entry
counter, used by this module only as an opaque hashable key with two
numeric accessors (`trace_entry_id`, `re_entry_count`). -/
structure ExecutionFrameId where
  trace_entry_id : Nat
  re_entry_count : Nat
deriving DecidableEq, Repr

/-- The tagged union of snapshot payloads: a hook snapshot carries a USID,
an opcode snapshot carries a program counter and an operand stack. -/
inductive SnapshotDetail where
  | Hook (usid : Nat)
  | Opcode (pc : Nat) (stack : List Nat)
deriving DecidableEq, Repr

/-- A snapshot as seen by the pretty printer: its detail payload and the
address of the bytecode being executed. -/
structure Snapshot where
  detail : SnapshotDetail
  bytecode_address : Nat
deriving DecidableEq, Repr

/-- Modelled from the spec: accessor `is_hook()` of the snapshot engine
(declared outside the printed source); true exactly when the detail is the
`Hook` variant. -/
def Snapshot.is_hook (s : Snapshot) : Bool :=
  match s.detail with
  | .Hook _ => true
  | .Opcode _ _ => false

/-- Modelled from the spec: accessor `is_opcode()` of the snapshot engine
(declared outside the printed source); true exactly when the detail is the
`Opcode` variant. -/
def Snapshot.is_opcode (s : Snapshot) : Bool :=
  match s.detail with
  | .Hook _ => false
  | .Opcode _ _ => true

/-- The ordered collection of `(frame_id, snapshot)` pairs (`self.inner`). -/
abbrev SnapshotList := List (ExecutionFrameId × Snapshot)

/-- `SnapshotStats`: aggregate counts returned by `get_snapshot_stats`. -/
structure SnapshotStats where
  total_snapshots : Nat
  hook_snapshots : Nat
  opcode_snapshots : Nat
  total_frames : Nat
  frames_with_hooks : Nat
  frames_with_opcodes : Nat
deriving DecidableEq, Repr

/-- A hash-set insert: sets are modelled as duplicate-free lists, so an
insert adds the element only when it is not yet present. -/
def hsInsert (l : List ExecutionFrameId) (x : ExecutionFrameId) : List ExecutionFrameId :=
  if x ∈ l then l else x :: l

/-- The loop of `get_snapshot_stats`: one pass over the collection,
classifying each snapshot and accumulating (hook count, opcode count,
frames-with-hooks set, frames-with-opcodes set). -/
def statsLoop : SnapshotList → Nat → Nat → List ExecutionFrameId → List ExecutionFrameId →
    Nat × Nat × List ExecutionFrameId × List ExecutionFrameId
  | [], hc, oc, fwh, fwo => (hc, oc, fwh, fwo)
  | (fid, s) :: rest, hc, oc, fwh, fwo =>
    match s.detail with
    | .Hook _ => statsLoop rest (hc + 1) oc (hsInsert fwh fid) fwo
    | .Opcode _ _ => statsLoop rest hc (oc + 1) fwh (hsInsert fwo fid)

/-- `get_snapshot_stats`: classify every snapshot, then assemble the stats
record.  `frameCount` is the externally maintained `self.frame_count()`
value (modelled from the spec as an input, since its definition lives in
the snapshot engine), passed through unchanged into `total_frames`. -/
def get_snapshot_stats (inner : SnapshotList) (frameCount : Nat) : SnapshotStats :=
  let r := statsLoop inner 0 0 [] []
  { total_snapshots := inner.length
    hook_snapshots := r.1
    opcode_snapshots := r.2.1
    total_frames := frameCount
    frames_with_hooks := r.2.2.1.length
    frames_with_opcodes := r.2.2.2.length }

/-- The number of distinct frame ids actually occurring in the collection. -/
def distinctFrameCount (inner : SnapshotList) : Nat :=
  (inner.map Prod.fst).dedup.length

/-- Lookup in the association list modelling the grouping hash map. -/
def lookupGroup : List (ExecutionFrameId × List Snapshot) → ExecutionFrameId →
    Option (List Snapshot)
  | [], _ => none
  | (k, v) :: rest, fid => if k = fid then some v else lookupGroup rest fid

/-- The `entry(..).or_default().push(..)` of the grouping loop: append the
snapshot to the frame's bucket, creating the bucket when absent. -/
def addToGroup : List (ExecutionFrameId × List Snapshot) → ExecutionFrameId → Snapshot →
    List (ExecutionFrameId × List Snapshot)
  | [], fid, s => [(fid, [s])]
  | (k, v) :: rest, fid, s =>
    if k = fid then (k, v ++ [s]) :: rest else (k, v) :: addToGroup rest fid s

/-- The grouping loop of `print_summary`: for each pair, append the frame
id to the order vector when its key is new, then push the snapshot into
the frame's bucket. -/
def groupLoop : SnapshotList → List ExecutionFrameId → List (ExecutionFrameId × List Snapshot) →
    List ExecutionFrameId × List (ExecutionFrameId × List Snapshot)
  | [], ord, grps => (ord, grps)
  | (fid, s) :: rest, ord, grps =>
    match lookupGroup grps fid with
    | some _ => groupLoop rest ord (addToGroup grps fid s)
    | none => groupLoop rest (ord ++ [fid]) (addToGroup grps fid s)

/-- The grouping pass of `print_summary`, started from empty state:
returns `(frame_order, frame_groups)`. -/
def groupByFrame (inner : SnapshotList) :
    List ExecutionFrameId × List (ExecutionFrameId × List Snapshot) :=
  groupLoop inner [] []

/-- Spec-side definition (for the refinement claims): the distinct frame
ids of a list in first-occurrence order. -/
def firstOccur : List ExecutionFrameId → List ExecutionFrameId
  | [] => []
  | x :: xs => x :: (firstOccur xs).filter (fun y => y ≠ x)

/-- The PC-range datum printed by the opcode sub-renderer. -/
inductive PcRange where
  | single (pc : Nat)
  | range (min_pc max_pc : Nat)
deriving DecidableEq, Repr

/-- One emitted output line (or diagnostic log event), with the data
interpolated into it; static text lines carry their literal text. -/
inductive OutputEntry where
  | text (s : String)
  | totalSnapshots (n : Nat)
  | totalFrames (n : Nat)
  | hookStat (count : Nat) (pct : ℚ)
  | opcodeStat (count : Nat) (pct : ℚ)
  | hookCoverage (count : Nat) (pct : ℚ)
  | opcodeCoverage (count : Nat) (pct : ℚ)
  | noSnapshotsNotice
  | logError (fid : ExecutionFrameId)
  | frameHeader (color : String) (display_idx : Nat) (icon : String) (fid : ExecutionFrameId)
  | typeLine (frame_type : String) (total_count : Nat)
  | hookCountLine (n : Nat)
  | opcodeCountLine (n : Nat)
  | usidSingle (indent : String) (usid : Nat)
  | usidFull (indent : String) (usids : List Nat)
  | usidTruncated (indent : String) (first_few last_few : List Nat) (total : Nat)
  | rangeLine (indent : String) (r : PcRange)
  | avgStackLine (indent : String) (avg : ℚ)
  | addressSingle (addr : Nat)
  | addressCount (n : Nat)
deriving DecidableEq, Repr

/-- Frame-type colors used by `print_frame_summary`. -/
def color_mixed : String := "\x1b[96m"

/-- Hook frame color. -/
def color_hook : String := "\x1b[92m"

/-- Opcode frame color. -/
def color_opcode : String := "\x1b[94m"

/-- Mixed frame icon. -/
def icon_mixed : String := "📍"

/-- Hook frame icon. -/
def icon_hook : String := "🎯"

/-- Opcode frame icon. -/
def icon_opcode : String := "⚙️"

/-- The USIDs of the hook snapshots of a frame, in order (the
`filter_map` + `map` of `print_hook_details`). -/
def hookUsids (snapshots : List Snapshot) : List Nat :=
  snapshots.filterMap (fun s =>
    match s.detail with
    | .Hook usid => some usid
    | .Opcode _ _ => none)

/-- `print_hook_details`: USID display with smart formatting by count. -/
def print_hook_details (snapshots : List Snapshot) (indent : String) : List OutputEntry :=
  let usids := hookUsids snapshots
  if usids.isEmpty then []
  else if usids.length = 1 then [.usidSingle indent (usids.headD 0)]
  else if usids.length ≤ 10 then [.usidFull indent usids]
  else [.usidTruncated indent (usids.take 3) ((usids.reverse.take 3).reverse) usids.length]

/-- The `(pc, stack)` payloads of the opcode snapshots of a frame, in
order (the `filter_map` of `print_opcode_summary`). -/
def opcodeData (snapshots : List Snapshot) : List (Nat × List Nat) :=
  snapshots.filterMap (fun s =>
    match s.detail with
    | .Hook _ => none
    | .Opcode pc stack => some (pc, stack))

/-- The PC range of `print_opcode_summary`: a single pc for exactly one
opcode snapshot, otherwise `min(pc)..max(pc)` with the source's
`unwrap_or(0)` fallbacks. -/
def pcRangeOf (ops : List (Nat × List Nat)) : PcRange :=
  if ops.length = 1 then .single (ops.headD (0, [])).1
  else .range (((ops.map Prod.fst).min?).getD 0) (((ops.map Prod.fst).max?).getD 0)

/-- The average stack depth of `print_opcode_summary`, with the source's
guard returning `0.0` on an empty opcode-snapshot list. -/
def avg_stack (ops : List (Nat × List Nat)) : ℚ :=
  if ¬ ops.isEmpty then ((ops.map (fun o => o.2.length)).sum : ℚ) / (ops.length : ℚ)
  else 0

/-- `print_opcode_summary`: early return on no opcode snapshots, else the
PC-range line and the average-stack-depth line. -/
def print_opcode_summary (snapshots : List Snapshot) (indent : String) : List OutputEntry :=
  let ops := opcodeData snapshots
  if ops.isEmpty then []
  else [.rangeLine indent (pcRangeOf ops), .avgStackLine indent (avg_stack ops)]

/-- The set of distinct bytecode addresses of a frame's snapshots (the
hash-set `collect` of `print_frame_summary`; only its size and, when the
size is 1, its unique element are observed). -/
def frameAddresses (snapshots : List Snapshot) : List Nat :=
  (snapshots.map (fun s => s.bytecode_address)).dedup

/-- The address lines at the end of `print_frame_summary`: the single
address when exactly one is distinct, the distinct count when more, and
nothing when the frame has no snapshots. -/
def addressEntries (snapshots : List Snapshot) : List OutputEntry :=
  let addresses := frameAddresses snapshots
  if addresses.length = 1 then [.addressSingle (addresses.headD 0)]
  else if ¬ addresses.isEmpty then [.addressCount addresses.length]
  else []

/-- `print_frame_summary`: classify the frame from its per-kind counts
(logging a diagnostic on a mixed frame), emit the header (which carries
the display index, color, icon and the frame id with its two structural
components) and the type line, branch into the per-kind detail lines, and
finish with the address lines. -/
def print_frame_summary (display_idx : Nat) (frame_id : ExecutionFrameId)
    (snapshots : List Snapshot) : List OutputEntry :=
  let hook_count := (snapshots.filter (fun s => s.is_hook)).length
  let opcode_count := (snapshots.filter (fun s => s.is_opcode)).length
  let total_count := snapshots.length
  let log : List OutputEntry :=
    if hook_count > 0 ∧ opcode_count > 0 then [.logError frame_id] else []
  let cls : String × String × String :=
    if hook_count > 0 ∧ opcode_count > 0 then ("Mixed", color_mixed, icon_mixed)
    else if hook_count > 0 then ("Hook", color_hook, icon_hook)
    else ("Opcode", color_opcode, icon_opcode)
  log ++
    [.frameHeader cls.2.1 display_idx cls.2.2 frame_id,
     .typeLine cls.1 total_count] ++
    (if hook_count > 0 ∧ opcode_count > 0 then
      [.hookCountLine hook_count, .opcodeCountLine opcode_count]
    else if hook_count > 0 then print_hook_details snapshots "          "
    else print_opcode_summary snapshots "          ") ++
    addressEntries snapshots

/-- The 66-character horizontal double rule of the banner (written via
`replicate` rather than literally). -/
def banner_rule : String := String.mk (List.replicate 66 '═')

/-- The 65-character horizontal rule of the frame-details separators. -/
def sep_rule : String := String.mk (List.replicate 65 '─')

/-- Banner, section-header, separator and legend text constants of
`print_summary`. -/
def banner_top : String := "\n\x1b[36m╔" ++ banner_rule ++ "╗\x1b[0m"

/-- Banner title line. -/
def banner_title : String :=
  "\x1b[36m║                    UNIFIED SNAPSHOTS SUMMARY                     ║\x1b[0m"

/-- Banner bottom line. -/
def banner_bottom : String := "\x1b[36m╚" ++ banner_rule ++ "╝\x1b[0m\n"

/-- Overall-statistics section header. -/
def stats_header : String := "\x1b[33m📊 Overall Statistics:\x1b[0m"

/-- Frame-coverage section header. -/
def coverage_header : String := "\n\x1b[33m🎯 Frame Coverage:\x1b[0m"

/-- Frame-details section header. -/
def frame_details_header : String := "\n\x1b[33m📋 Frame Details:\x1b[0m"

/-- Separator before the frame sections. -/
def sep_top : String := "\x1b[90m" ++ sep_rule ++ "\x1b[0m"

/-- Separator after the frame sections. -/
def sep_bottom : String := "\n\x1b[90m" ++ sep_rule ++ "\x1b[0m"

/-- Legend header. -/
def legend_header : String := "\n\x1b[33m📖 Legend:\x1b[0m"

/-- Legend line for hook snapshots. -/
def legend_hook : String := "  \x1b[92m🎯 Hook\x1b[0m    - Strategic instrumentation breakpoint"

/-- Legend line for opcode snapshots. -/
def legend_opcode : String := "  \x1b[94m⚙️ Opcode\x1b[0m  - Fine-grained instruction-level snapshot"

/-- `print_summary`: banner, overall statistics (with zero-guarded
percentages), frame coverage (idem), then either the no-snapshots notice
(empty collection) or the grouped frame sections followed by the legend.
`frameCount` is the externally maintained `self.frame_count()` value. -/
def print_summary (inner : SnapshotList) (frameCount : Nat) : List OutputEntry :=
  let stats := get_snapshot_stats inner frameCount
  [OutputEntry.text banner_top,
   .text banner_title,
   .text banner_bottom,
   .text stats_header,
   .totalSnapshots stats.total_snapshots,
   .totalFrames stats.total_frames,
   .hookStat stats.hook_snapshots
     (if stats.total_snapshots > 0 then
       (stats.hook_snapshots : ℚ) / (stats.total_snapshots : ℚ) * 100
     else 0),
   .opcodeStat stats.opcode_snapshots
     (if stats.total_snapshots > 0 then
       (stats.opcode_snapshots : ℚ) / (stats.total_snapshots : ℚ) * 100
     else 0),
   .text coverage_header,
   .hookCoverage stats.frames_with_hooks
     (if stats.total_frames > 0 then
       (stats.frames_with_hooks : ℚ) / (stats.total_frames : ℚ) * 100
     else 0),
   .opcodeCoverage stats.frames_with_opcodes
     (if stats.total_frames > 0 then
       (stats.frames_with_opcodes : ℚ) / (stats.total_frames : ℚ) * 100
     else 0)] ++
  (if inner.isEmpty then [.noSnapshotsNotice]
  else
    let g := groupByFrame inner
    [OutputEntry.text frame_details_header, .text sep_top] ++
      (g.1.enum.map (fun p =>
        print_frame_summary p.1 p.2 ((lookupGroup g.2 p.2).getD []))).flatten ++
      [.text sep_bottom, .text legend_header, .text legend_hook, .text legend_opcode])

/-- Example frame id 1, used by concrete witnesses. -/
def fid1 : ExecutionFrameId := ⟨1, 0⟩

/-- Example frame id 2. -/
def fid2 : ExecutionFrameId := ⟨2, 0⟩

/-- Example frame id 3. -/
def fid3 : ExecutionFrameId := ⟨3, 0⟩

/-- A hook snapshot with the given USID and bytecode address. -/
def hookSnap (usid : Nat) (addr : Nat) : Snapshot := ⟨.Hook usid, addr⟩

/-- An opcode snapshot with the given pc, stack and bytecode address. -/
def opSnap (pc : Nat) (stack : List Nat) (addr : Nat) : Snapshot := ⟨.Opcode pc stack, addr⟩

/-- Example collection with one hook and one opcode snapshot in the same
frame (a mixed frame). -/
def exMixedInner : SnapshotList := [(fid1, hookSnap 1 5), (fid1, opSnap 3 [1] 5)]

/-- The spec's grouping example: input frames `[F2, F1, F2, F3]`. -/
def exGroupInner : SnapshotList :=
  [(fid2, hookSnap 1 5), (fid1, hookSnap 2 5), (fid2, hookSnap 3 5), (fid3, opSnap 0 [] 6)]

/-- The spec's hook-detail example: 12 hook snapshots with USIDs 1..12. -/
def exHook12 : List Snapshot :=
  [hookSnap 1 9, hookSnap 2 9, hookSnap 3 9, hookSnap 4 9, hookSnap 5 9, hookSnap 6 9,
   hookSnap 7 9, hookSnap 8 9, hookSnap 9 9, hookSnap 10 9, hookSnap 11 9, hookSnap 12 9]

/-- The spec's opcode-summary example: pcs `5, 20, 5, 9`, stack depths
`1, 3, 1, 5`. -/
def exOp4 : List Snapshot :=
  [opSnap 5 [0] 7, opSnap 20 [0, 0, 0] 7, opSnap 5 [0] 7, opSnap 9 [0, 0, 0, 0, 0] 7]

lemma statsLoop_counts (inner : SnapshotList) :
    ∀ hc oc fwh fwo,
      (statsLoop inner hc oc fwh fwo).1 + (statsLoop inner hc oc fwh fwo).2.1 =
        hc + oc + inner.length := by
  induction inner with
  | nil => intro hc oc fwh fwo; simp [statsLoop]
  | cons p rest ih =>
    intro hc oc fwh fwo
    obtain ⟨fid, s⟩ := p
    cases h : s.detail with
    | Hook u =>
      simp only [statsLoop, h, List.length_cons]
      rw [ih]
      omega
    | Opcode pc stack =>
      simp only [statsLoop, h, List.length_cons]
      rw [ih]
      omega

lemma mem_hsInsert {l : List ExecutionFrameId} {x a : ExecutionFrameId} :
    a ∈ hsInsert l x ↔ a = x ∨ a ∈ l := by
  unfold hsInsert
  split
  · constructor
    · exact fun h => Or.inr h
    · rintro (rfl | h) <;> assumption
  · simp

lemma nodup_hsInsert {l : List ExecutionFrameId} {x : ExecutionFrameId} (h : l.Nodup) :
    (hsInsert l x).Nodup := by
  unfold hsInsert
  split
  · exact h
  · exact List.Nodup.cons (by assumption) h

lemma statsLoop_fwh_subset (inner : SnapshotList) :
    ∀ hc oc fwh fwo a, a ∈ (statsLoop inner hc oc fwh fwo).2.2.1 →
      a ∈ fwh ∨ a ∈ inner.map Prod.fst := by
  induction inner with
  | nil => intro hc oc fwh fwo a ha; exact Or.inl ha
  | cons p rest ih =>
    intro hc oc fwh fwo a ha
    obtain ⟨fid, s⟩ := p
    cases h : s.detail with
    | Hook u =>
      simp only [statsLoop, h] at ha
      rcases ih _ _ _ _ _ ha with hm | hm
      · rcases mem_hsInsert.mp hm with rfl | hm'
        · right; simp
        · exact Or.inl hm'
      · right; simp [hm]
    | Opcode pc stack =>
      simp only [statsLoop, h] at ha
      rcases ih _ _ _ _ _ ha with hm | hm
      · exact Or.inl hm
      · right; simp [hm]

lemma statsLoop_fwo_subset (inner : SnapshotList) :
    ∀ hc oc fwh fwo a, a ∈ (statsLoop inner hc oc fwh fwo).2.2.2 →
      a ∈ fwo ∨ a ∈ inner.map Prod.fst := by
  induction inner with
  | nil => intro hc oc fwh fwo a ha; exact Or.inl ha
  | cons p rest ih =>
    intro hc oc fwh fwo a ha
    obtain ⟨fid, s⟩ := p
    cases h : s.detail with
    | Hook u =>
      simp only [statsLoop, h] at ha
      rcases ih _ _ _ _ _ ha with hm | hm
      · exact Or.inl hm
      · right; simp [hm]
    | Opcode pc stack =>
      simp only [statsLoop, h] at ha
      rcases ih _ _ _ _ _ ha with hm | hm
      · rcases mem_hsInsert.mp hm with rfl | hm'
        · right; simp
        · exact Or.inl hm'
      · right; simp [hm]

lemma statsLoop_nodup (inner : SnapshotList) :
    ∀ hc oc fwh fwo, fwh.Nodup → fwo.Nodup →
      (statsLoop inner hc oc fwh fwo).2.2.1.Nodup ∧
        (statsLoop inner hc oc fwh fwo).2.2.2.Nodup := by
  induction inner with
  | nil => intro hc oc fwh fwo h1 h2; exact ⟨h1, h2⟩
  | cons p rest ih =>
    intro hc oc fwh fwo h1 h2
    obtain ⟨fid, s⟩ := p
    cases h : s.detail with
    | Hook u =>
      simp only [statsLoop, h]
      exact ih _ _ _ _ (nodup_hsInsert h1) h2
    | Opcode pc stack =>
      simp only [statsLoop, h]
      exact ih _ _ _ _ h1 (nodup_hsInsert h2)

lemma nodup_subset_length_le {l m : List ExecutionFrameId} (hn : l.Nodup)
    (hs : ∀ a, a ∈ l → a ∈ m) : l.length ≤ m.dedup.length := by
  have h1 : l.toFinset.card = l.length := List.toFinset_card_of_nodup hn
  have h2 : l.toFinset ⊆ m.toFinset := by
    intro a ha
    rw [List.mem_toFinset] at ha ⊢
    exact hs a ha
  calc l.length = l.toFinset.card := h1.symm
    _ ≤ m.toFinset.card := Finset.card_le_card h2
    _ = m.dedup.length := List.card_toFinset m

/-- C1: for every snapshot collection, the stats returned by
`get_snapshot_stats` satisfy
`hook_snapshots + opcode_snapshots = total_snapshots`, where
`total_snapshots` is the collection's length. -/
theorem c1_hook_plus_opcode_eq_total (inner : SnapshotList) (frameCount : Nat) :
    (get_snapshot_stats inner frameCount).hook_snapshots +
        (get_snapshot_stats inner frameCount).opcode_snapshots =
      (get_snapshot_stats inner frameCount).total_snapshots ∧
    (get_snapshot_stats inner frameCount).total_snapshots = inner.length := by
  refine ⟨?_, rfl⟩
  have h := statsLoop_counts inner 0 0 [] []
  simpa [get_snapshot_stats] using h

/-- C2: `frames_with_hooks` and `frames_with_opcodes` are each bounded by
`total_frames`, the externally-reported frame count, under the spec's
description of `frame_count()` as the number of distinct frames (which is
at least the number of distinct frame ids observed in the collection). -/
theorem c2_coverage_le_total_frames (inner : SnapshotList) (frameCount : Nat)
    (h : distinctFrameCount inner ≤ frameCount) :
    (get_snapshot_stats inner frameCount).frames_with_hooks ≤
        (get_snapshot_stats inner frameCount).total_frames ∧
      (get_snapshot_stats inner frameCount).frames_with_opcodes ≤
        (get_snapshot_stats inner frameCount).total_frames := by
  have hnodup := statsLoop_nodup inner 0 0 [] [] List.nodup_nil List.nodup_nil
  constructor
  · have hsub : ∀ a, a ∈ (statsLoop inner 0 0 [] []).2.2.1 → a ∈ inner.map Prod.fst := by
      intro a ha
      rcases statsLoop_fwh_subset inner 0 0 [] [] a ha with hm | hm
      · exact absurd hm (List.not_mem_nil a)
      · exact hm
    have := nodup_subset_length_le hnodup.1 hsub
    simp only [get_snapshot_stats]
    exact le_trans this h
  · have hsub : ∀ a, a ∈ (statsLoop inner 0 0 [] []).2.2.2 → a ∈ inner.map Prod.fst := by
      intro a ha
      rcases statsLoop_fwo_subset inner 0 0 [] [] a ha with hm | hm
      · exact absurd hm (List.not_mem_nil a)
      · exact hm
    have := nodup_subset_length_le hnodup.2 hsub
    simp only [get_snapshot_stats]
    exact le_trans this h

/-- Witness for C2 at a concrete mixed collection with `frame_count = 1`. -/
theorem c2_coverage_le_total_frames_witness :
    (get_snapshot_stats exMixedInner 1).frames_with_hooks ≤
        (get_snapshot_stats exMixedInner 1).total_frames ∧
      (get_snapshot_stats exMixedInner 1).frames_with_opcodes ≤
        (get_snapshot_stats exMixedInner 1).total_frames :=
  c2_coverage_le_total_frames exMixedInner 1 (by decide)

lemma lookupGroup_addToGroup (grps : List (ExecutionFrameId × List Snapshot))
    (fid : ExecutionFrameId) (s : Snapshot) (f : ExecutionFrameId) :
    lookupGroup (addToGroup grps fid s) f =
      if f = fid then some ((lookupGroup grps fid).getD [] ++ [s])
      else lookupGroup grps f := by
  induction grps with
  | nil =>
    by_cases h : f = fid
    · subst h
      simp [addToGroup, lookupGroup]
    · simp [addToGroup, lookupGroup, h, Ne.symm h]
  | cons kv rest ih =>
    obtain ⟨k, v⟩ := kv
    by_cases hk : k = fid
    · subst hk
      simp only [addToGroup, if_pos rfl, lookupGroup]
      by_cases hf : k = f
      · subst hf
        simp [lookupGroup]
      · simp [lookupGroup, hf, Ne.symm hf]
    · simp only [addToGroup, if_neg hk, lookupGroup]
      by_cases hf : k = f
      · subst hf
        simp [hk]
      · simp [hf, ih, hk]

lemma lookupGroup_addToGroup_none {grps : List (ExecutionFrameId × List Snapshot)}
    {fid : ExecutionFrameId} {s : Snapshot} {f : ExecutionFrameId} :
    lookupGroup (addToGroup grps fid s) f = none ↔
      (f ≠ fid ∧ lookupGroup grps f = none) := by
  rw [lookupGroup_addToGroup]
  by_cases h : f = fid
  · simp [h]
  · simp [h]

lemma groupLoop_order (inner : SnapshotList) :
    ∀ ord grps,
      (groupLoop inner ord grps).1 =
        ord ++ (firstOccur (inner.map Prod.fst)).filter
          (fun f => lookupGroup grps f = none) := by
  induction inner with
  | nil => intro ord grps; simp [groupLoop, firstOccur]
  | cons p rest ih =>
    intro ord grps
    obtain ⟨f0, s⟩ := p
    have hfilter : ∀ l : List ExecutionFrameId,
        l.filter (fun f => lookupGroup (addToGroup grps f0 s) f = none) =
          (l.filter (fun y => y ≠ f0)).filter (fun f => lookupGroup grps f = none) := by
      intro l
      rw [List.filter_filter]
      apply List.filter_congr
      intro a _
      by_cases ha : a = f0
      · subst ha
        simp [lookupGroup_addToGroup]
      · simp [lookupGroup_addToGroup, ha]
    cases hl : lookupGroup grps f0 with
    | some v =>
      simp only [groupLoop, hl]
      rw [ih, hfilter]
      congr 1
      simp only [List.map_cons, firstOccur, List.filter_cons]
      rw [if_neg (by simp [hl])]
    | none =>
      simp only [groupLoop, hl]
      rw [ih, hfilter]
      simp only [List.map_cons, firstOccur, List.filter_cons]
      rw [if_pos (by simp [hl])]
      simp

lemma groupLoop_lookup_some (inner : SnapshotList) :
    ∀ ord grps fid v, lookupGroup grps fid = some v →
      lookupGroup (groupLoop inner ord grps).2 fid =
        some (v ++ (inner.filter (fun p => p.1 = fid)).map Prod.snd) := by
  induction inner with
  | nil => intro ord grps fid v h; simpa [groupLoop] using h
  | cons p rest ih =>
    intro ord grps fid v h
    obtain ⟨f0, s⟩ := p
    cases hl : lookupGroup grps f0 with
    | some w =>
      simp only [groupLoop, hl]
      by_cases hf : f0 = fid
      · subst hf
        have hv : w = v := by rw [hl] at h; exact Option.some.inj h
        subst hv
        have hnext : lookupGroup (addToGroup grps f0 s) f0 = some (w ++ [s]) := by
          rw [lookupGroup_addToGroup, if_pos rfl, hl]
          rfl
        rw [ih _ _ _ _ hnext]
        simp [List.filter_cons]
      · have hnext : lookupGroup (addToGroup grps f0 s) fid = some v := by
          rw [lookupGroup_addToGroup, if_neg (fun hh => hf hh.symm)]
          exact h
        rw [ih _ _ _ _ hnext]
        simp [List.filter_cons, hf]
    | none =>
      simp only [groupLoop, hl]
      by_cases hf : f0 = fid
      · subst hf
        rw [hl] at h
        exact absurd h (by simp)
      · have hnext : lookupGroup (addToGroup grps f0 s) fid = some v := by
          rw [lookupGroup_addToGroup, if_neg (fun hh => hf hh.symm)]
          exact h
        rw [ih _ _ _ _ hnext]
        simp [List.filter_cons, hf]

lemma groupLoop_lookup_none (inner : SnapshotList) :
    ∀ ord grps fid, lookupGroup grps fid = none →
      lookupGroup (groupLoop inner ord grps).2 fid =
        if fid ∈ inner.map Prod.fst then
          some ((inner.filter (fun p => p.1 = fid)).map Prod.snd)
        else none := by
  induction inner with
  | nil => intro ord grps fid h; simpa [groupLoop] using h
  | cons p rest ih =>
    intro ord grps fid h
    obtain ⟨f0, s⟩ := p
    cases hl : lookupGroup grps f0 with
    | some w =>
      simp only [groupLoop, hl]
      by_cases hf : f0 = fid
      · subst hf
        rw [hl] at h
        exact absurd h (by simp)
      · have hnext : lookupGroup (addToGroup grps f0 s) fid = none := by
          rw [lookupGroup_addToGroup, if_neg (fun hh => hf hh.symm)]
          exact h
        rw [ih _ _ _ hnext, List.map_cons]
        by_cases hin : fid ∈ List.map Prod.fst rest
        · rw [if_pos hin, if_pos (List.mem_cons_of_mem f0 hin)]
          simp [List.filter_cons, hf]
        · rw [if_neg hin,
            if_neg (fun hc => (List.mem_cons.mp hc).elim (fun he => hf he.symm) hin)]
    | none =>
      simp only [groupLoop, hl]
      by_cases hf : f0 = fid
      · subst hf
        have hnext : lookupGroup (addToGroup grps f0 s) f0 = some [s] := by
          rw [lookupGroup_addToGroup, if_pos rfl, h]
          rfl
        rw [groupLoop_lookup_some rest _ _ _ _ hnext]
        simp [List.filter_cons]
      · have hnext : lookupGroup (addToGroup grps f0 s) fid = none := by
          rw [lookupGroup_addToGroup, if_neg (fun hh => hf hh.symm)]
          exact h
        rw [ih _ _ _ hnext, List.map_cons]
        by_cases hin : fid ∈ List.map Prod.fst rest
        · rw [if_pos hin, if_pos (List.mem_cons_of_mem f0 hin)]
          simp [List.filter_cons, hf]
        · rw [if_neg hin,
            if_neg (fun hc => (List.mem_cons.mp hc).elim (fun he => hf he.symm) hin)]

lemma mem_firstOccur {l : List ExecutionFrameId} {a : ExecutionFrameId} :
    a ∈ firstOccur l ↔ a ∈ l := by
  induction l with
  | nil => simp [firstOccur]
  | cons x xs ih =>
    simp only [firstOccur, List.mem_cons, List.mem_filter]
    constructor
    · rintro (rfl | ⟨hm, _⟩)
      · exact Or.inl rfl
      · exact Or.inr (ih.mp hm)
    · rintro (rfl | hm)
      · exact Or.inl rfl
      · by_cases hax : a = x
        · exact Or.inl hax
        · exact Or.inr ⟨ih.mpr hm, by simp [hax]⟩

lemma groupByFrame_order (inner : SnapshotList) :
    (groupByFrame inner).1 = firstOccur (inner.map Prod.fst) := by
  rw [groupByFrame, groupLoop_order]
  simp [lookupGroup]

lemma groupByFrame_lookup {inner : SnapshotList} {fid : ExecutionFrameId}
    (h : fid ∈ (groupByFrame inner).1) :
    lookupGroup (groupByFrame inner).2 fid =
      some ((inner.filter (fun p => p.1 = fid)).map Prod.snd) := by
  rw [groupByFrame_order] at h
  have hmem : fid ∈ inner.map Prod.fst := mem_firstOccur.mp h
  rw [groupByFrame, groupLoop_lookup_none inner [] [] fid rfl, if_pos hmem]

/-- C3: the grouping pass of `print_summary` produces `frame_order` equal
to the distinct frame ids in first-occurrence order of the input (not
sorted, not grouped by kind), and each listed frame's group is exactly
that frame's snapshots in their original relative input order. -/
theorem c3_group_by_frame (inner : SnapshotList) (fid : ExecutionFrameId) :
    (groupByFrame inner).1 = firstOccur (inner.map Prod.fst) ∧
      (fid ∈ (groupByFrame inner).1 →
        lookupGroup (groupByFrame inner).2 fid =
          some ((inner.filter (fun p => p.1 = fid)).map Prod.snd)) :=
  ⟨groupByFrame_order inner, fun h => groupByFrame_lookup h⟩

/-- Witness for C3 on the spec's example with frames `[F2, F1, F2, F3]`:
the order is `[F2, F1, F3]` and F2's group keeps its two snapshots in
input order. -/
theorem c3_group_by_frame_witness :
    (groupByFrame exGroupInner).1 = [fid2, fid1, fid3] ∧
      lookupGroup (groupByFrame exGroupInner).2 fid2 =
        some [hookSnap 1 5, hookSnap 3 5] := by
  have h := c3_group_by_frame exGroupInner fid2
  refine ⟨?_, ?_⟩
  · rw [h.1]
    decide
  · rw [h.2 (by rw [h.1]; decide)]
    decide

/-- C9: the renderers are total.  In this embedding `print_summary` and
`print_frame_summary` are total functions by construction; the two spots
the source unwraps are proved to succeed: the group lookup for every id
in `frame_order` returns a value, and the distinct-address set of size 1
has a first element. -/
theorem c9_renderers_total (inner : SnapshotList) (snapshots : List Snapshot)
    (fid : ExecutionFrameId) (h1 : fid ∈ (groupByFrame inner).1)
    (h2 : (frameAddresses snapshots).length = 1) :
    (lookupGroup (groupByFrame inner).2 fid).isSome ∧
      (frameAddresses snapshots).head?.isSome := by
  constructor
  · rw [groupByFrame_lookup h1]
    rfl
  · cases hl : frameAddresses snapshots with
    | nil => rw [hl] at h2; simp at h2
    | cons a t => rfl

/-- Witness for C9 on the spec's grouping example and a one-address frame. -/
theorem c9_renderers_total_witness :
    (lookupGroup (groupByFrame exGroupInner).2 fid2).isSome ∧
      (frameAddresses [hookSnap 1 5]).head?.isSome :=
  c9_renderers_total exGroupInner [hookSnap 1 5] fid2 (by decide) (by decide)

lemma isEmpty_false_of_pos {α : Type} {l : List α} (h : 0 < l.length) :
    l.isEmpty = false := by
  cases l with
  | nil => simp at h
  | cons a t => rfl

lemma reverse_take_reverse (l : List Nat) (n : Nat) :
    (l.reverse.take n).reverse = l.drop (l.length - n) := by
  rw [List.reverse_take]
  simp

lemma nat_min?_spec {l : List Nat} {a : Nat} (h : l.min? = some a) :
    a ∈ l ∧ ∀ b ∈ l, a ≤ b := by
  rw [List.min?_eq_some_iff] at h
  · exact h
  · intro x; simp
  · intro x y; omega
  · intro x y c; omega

lemma nat_max?_spec {l : List Nat} {a : Nat} (h : l.max? = some a) :
    a ∈ l ∧ ∀ b ∈ l, b ≤ a := by
  rw [List.max?_eq_some_iff] at h
  · exact h
  · intro x; simp
  · intro x y; omega
  · intro x y c; omega

lemma min?_isSome_of_ne_nil {l : List Nat} (h : l ≠ []) : l.min?.isSome := by
  cases l with
  | nil => simp at h
  | cons a t => simp [List.min?]

lemma max?_isSome_of_ne_nil {l : List Nat} (h : l ≠ []) : l.max?.isSome := by
  cases l with
  | nil => simp at h
  | cons a t => simp [List.max?]

/-- C4: a frame containing both a hook and an opcode snapshot is
classified `Mixed`, emits the error-level log event naming the frame id,
does not abort (the full section is still produced, through to the
address lines), and renders the frame's hook count and opcode count as
two lines.  In this embedding every renderer is a total function, so the
overall report always completes. -/
theorem c4_mixed_frame (display_idx : Nat) (frame_id : ExecutionFrameId)
    (snapshots : List Snapshot)
    (hh : 0 < (snapshots.filter (fun s => s.is_hook)).length)
    (ho : 0 < (snapshots.filter (fun s => s.is_opcode)).length) :
    print_frame_summary display_idx frame_id snapshots =
      OutputEntry.logError frame_id ::
        .frameHeader color_mixed display_idx icon_mixed frame_id ::
        .typeLine "Mixed" snapshots.length ::
        .hookCountLine (snapshots.filter (fun s => s.is_hook)).length ::
        .opcodeCountLine (snapshots.filter (fun s => s.is_opcode)).length ::
        addressEntries snapshots := by
  simp [print_frame_summary, hh, ho]

/-- Witness for C4 on a concrete frame with one hook and one opcode
snapshot at a single address. -/
theorem c4_mixed_frame_witness :
    print_frame_summary 0 fid1 [hookSnap 1 5, opSnap 3 [1] 5] =
      [OutputEntry.logError fid1,
       .frameHeader color_mixed 0 icon_mixed fid1,
       .typeLine "Mixed" 2, .hookCountLine 1, .opcodeCountLine 1,
       .addressSingle 5] := by
  rw [c4_mixed_frame 0 fid1 [hookSnap 1 5, opSnap 3 [1] 5] (by decide) (by decide)]
  decide

/-- C10: calling `print_frame_summary` on an empty snapshot list does not
fault: the frame is classified and labeled `Opcode` (the final `else`
branch), both sub-renderers return early emitting nothing, and no address
line is printed since the empty distinct-address set matches neither
branch. -/
theorem c10_empty_snapshot_list (display_idx : Nat) (frame_id : ExecutionFrameId)
    (indent : String) :
    print_frame_summary display_idx frame_id [] =
      [OutputEntry.frameHeader color_opcode display_idx icon_opcode frame_id,
       .typeLine "Opcode" 0] ∧
      print_hook_details [] indent = [] ∧
      print_opcode_summary [] indent = [] ∧
      addressEntries [] = [] := by
  refine ⟨?_, ?_, ?_, ?_⟩ <;> rfl

/-- C7: the hook-detail sub-renderer extracts the frame's hook USIDs in
order and formats by count: exactly 1 is printed bare; 2 to 10 are
printed as the full ordered sequence; more than 10 are printed as the
first 3 and the last 3 (in original relative order) plus the total
count. -/
theorem c7_hook_details (snapshots : List Snapshot) (indent : String) :
    ((hookUsids snapshots).length = 1 →
      print_hook_details snapshots indent =
        [.usidSingle indent ((hookUsids snapshots).headD 0)]) ∧
      (2 ≤ (hookUsids snapshots).length ∧ (hookUsids snapshots).length ≤ 10 →
        print_hook_details snapshots indent = [.usidFull indent (hookUsids snapshots)]) ∧
      (10 < (hookUsids snapshots).length →
        print_hook_details snapshots indent =
          [.usidTruncated indent ((hookUsids snapshots).take 3)
            ((hookUsids snapshots).drop ((hookUsids snapshots).length - 3))
            (hookUsids snapshots).length]) := by
  refine ⟨?_, ?_, ?_⟩
  · intro h1
    have hne : (hookUsids snapshots).isEmpty = false := isEmpty_false_of_pos (by omega)
    simp [print_hook_details, hne, h1]
  · intro h2
    have hne : (hookUsids snapshots).isEmpty = false := isEmpty_false_of_pos (by omega)
    have hn1 : ¬ (hookUsids snapshots).length = 1 := by omega
    simp [print_hook_details, hne, hn1, h2.2]
  · intro h3
    have hne : (hookUsids snapshots).isEmpty = false := isEmpty_false_of_pos (by omega)
    have hn1 : ¬ (hookUsids snapshots).length = 1 := by omega
    have hn10 : ¬ (hookUsids snapshots).length ≤ 10 := by omega
    simp [print_hook_details, hne, hn1, hn10, reverse_take_reverse]

/-- Witness for C7 on the spec's example of 12 hook snapshots with USIDs
1..12: first three `1, 2, 3`, last three `10, 11, 12`, total `12`. -/
theorem c7_hook_details_witness :
    print_hook_details exHook12 "          " =
      [.usidTruncated "          " [1, 2, 3] [10, 11, 12] 12] := by
  have h := (c7_hook_details exHook12 "          ").2.2 (by decide)
  rw [h]
  decide

/-- C8: the opcode-summary sub-renderer prints the single pc for exactly
one opcode snapshot, otherwise the range from the minimum pc to the
maximum pc (computed independently over the frame's opcode snapshots),
and the arithmetic mean of the stack sizes, the mean being 0 on an empty
opcode-snapshot set rather than a fault.  (Rendering the mean to one
decimal place is a presentation detail outside the value-level
embedding.) -/
theorem c8_opcode_summary (snapshots : List Snapshot) (indent : String) :
    ((opcodeData snapshots).length = 1 →
      print_opcode_summary snapshots indent =
        [.rangeLine indent (.single ((opcodeData snapshots).headD (0, [])).1),
         .avgStackLine indent
           ((((opcodeData snapshots).map (fun o => o.2.length)).sum : ℚ) /
             ((opcodeData snapshots).length : ℚ))]) ∧
      (2 ≤ (opcodeData snapshots).length →
        ∃ m M, ((opcodeData snapshots).map Prod.fst).min? = some m ∧
          ((opcodeData snapshots).map Prod.fst).max? = some M ∧
          m ∈ (opcodeData snapshots).map Prod.fst ∧
          M ∈ (opcodeData snapshots).map Prod.fst ∧
          (∀ x ∈ (opcodeData snapshots).map Prod.fst, m ≤ x ∧ x ≤ M) ∧
          print_opcode_summary snapshots indent =
            [.rangeLine indent (.range m M),
             .avgStackLine indent
               ((((opcodeData snapshots).map (fun o => o.2.length)).sum : ℚ) /
                 ((opcodeData snapshots).length : ℚ))]) ∧
      avg_stack [] = 0 := by
  refine ⟨?_, ?_, rfl⟩
  · intro h1
    have hne : (opcodeData snapshots).isEmpty = false := isEmpty_false_of_pos (by omega)
    simp [print_opcode_summary, pcRangeOf, avg_stack, hne, h1]
  · intro h2
    have hne : (opcodeData snapshots).isEmpty = false := isEmpty_false_of_pos (by omega)
    have hnil : (opcodeData snapshots).map Prod.fst ≠ [] := by
      intro hc
      rw [List.map_eq_nil_iff] at hc
      rw [hc] at h2
      simp at h2
    obtain ⟨m, hm⟩ := Option.isSome_iff_exists.mp (min?_isSome_of_ne_nil hnil)
    obtain ⟨M, hM⟩ := Option.isSome_iff_exists.mp (max?_isSome_of_ne_nil hnil)
    have hn1 : ¬ (opcodeData snapshots).length = 1 := by omega
    refine ⟨m, M, hm, hM, (nat_min?_spec hm).1, (nat_max?_spec hM).1,
      fun x hx => ⟨(nat_min?_spec hm).2 x hx, (nat_max?_spec hM).2 x hx⟩, ?_⟩
    simp [print_opcode_summary, pcRangeOf, avg_stack, hne, hn1, hm, hM]

/-- Witness for C8 on the spec's example: pcs `5, 20, 5, 9` and stack
depths `1, 3, 1, 5` render range `5..20` and average depth `5/2`. -/
theorem c8_opcode_summary_witness :
    print_opcode_summary exOp4 "          " =
      [.rangeLine "          " (.range 5 20),
       .avgStackLine "          " ((5 : ℚ) / 2)] := by
  obtain ⟨m, M, hm, hM, _, _, _, heq⟩ :=
    (c8_opcode_summary exOp4 "          ").2.1 (by decide)
  have h5 : ((opcodeData exOp4).map Prod.fst).min? = some 5 := by decide
  have h20 : ((opcodeData exOp4).map Prod.fst).max? = some 20 := by decide
  have hm5 : m = 5 := Option.some.inj (hm.symm.trans h5)
  have hM20 : M = 20 := Option.some.inj (hM.symm.trans h20)
  subst hm5
  subst hM20
  rw [heq]
  have hod : opcodeData exOp4 = [(5, [0]), (20, [0, 0, 0]), (5, [0]), (9, [0, 0, 0, 0, 0])] := by
    rfl
  rw [hod]
  norm_num

/-- C5: every percentage in the overall-statistics and frame-coverage
blocks equals count divided by its denominator times 100 when the
denominator (`total_snapshots` for the hook/opcode percentages,
`total_frames` for the coverage percentages) is positive, and equals 0
when that denominator is 0; the guarded rational expressions are total,
so no division fault occurs. -/
theorem c5_percentages (inner : SnapshotList) (frameCount : Nat) :
    ∃ rest, print_summary inner frameCount =
      OutputEntry.text banner_top :: .text banner_title :: .text banner_bottom ::
        .text stats_header ::
        .totalSnapshots (get_snapshot_stats inner frameCount).total_snapshots ::
        .totalFrames (get_snapshot_stats inner frameCount).total_frames ::
        .hookStat (get_snapshot_stats inner frameCount).hook_snapshots
          (if (get_snapshot_stats inner frameCount).total_snapshots > 0 then
            ((get_snapshot_stats inner frameCount).hook_snapshots : ℚ) /
              ((get_snapshot_stats inner frameCount).total_snapshots : ℚ) * 100
          else 0) ::
        .opcodeStat (get_snapshot_stats inner frameCount).opcode_snapshots
          (if (get_snapshot_stats inner frameCount).total_snapshots > 0 then
            ((get_snapshot_stats inner frameCount).opcode_snapshots : ℚ) /
              ((get_snapshot_stats inner frameCount).total_snapshots : ℚ) * 100
          else 0) ::
        .text coverage_header ::
        .hookCoverage (get_snapshot_stats inner frameCount).frames_with_hooks
          (if (get_snapshot_stats inner frameCount).total_frames > 0 then
            ((get_snapshot_stats inner frameCount).frames_with_hooks : ℚ) /
              ((get_snapshot_stats inner frameCount).total_frames : ℚ) * 100
          else 0) ::
        .opcodeCoverage (get_snapshot_stats inner frameCount).frames_with_opcodes
          (if (get_snapshot_stats inner frameCount).total_frames > 0 then
            ((get_snapshot_stats inner frameCount).frames_with_opcodes : ℚ) /
              ((get_snapshot_stats inner frameCount).total_frames : ℚ) * 100
          else 0) :: rest :=
  ⟨_, rfl⟩

/-- C6: on an empty collection the report is exactly the title banner, the
overall statistics block (all percentages 0), the frame coverage block,
and the no-snapshots notice; nothing follows the notice — no frame
section and no legend. -/
theorem c6_empty_collection (frameCount : Nat) :
    print_summary [] frameCount =
      [OutputEntry.text banner_top, .text banner_title, .text banner_bottom,
       .text stats_header, .totalSnapshots 0, .totalFrames frameCount,
       .hookStat 0 0, .opcodeStat 0 0, .text coverage_header,
       .hookCoverage 0 0, .opcodeCoverage 0 0, .noSnapshotsNotice] := by
  simp only [print_summary, get_snapshot_stats, statsLoop, List.length_nil, List.isEmpty_nil,
    if_true]
  norm_num
